import Mathlib

/-!
Verification of the compliance rule evaluation engine in
`src/security/compliance_scanner.py` (class `SecurityComplianceScanner`).

The data model (`ComplianceRule`, `ComplianceResult`), the scan loop
(`scan_all`), the severity lookup (`_get_rule_severity`), the summary
aggregation, and the report projection used by `export_results_csv` /
`export_results_html` are embedded shallowly.  A check bound to a rule is
modelled by the pair of the result list it computes and an optional
exception message: when the message is present the invocation raises after
having computed the (discarded) intermediate list, mirroring a Python
callable that throws part-way through.
-/

/-- Definition of a compliance rule (dataclass `ComplianceRule`). -/
structure ComplianceRule where
  id : String
  title : String
  description : String
  severity : String
  category : String
  service : String
  check_function : String
deriving DecidableEq

/-- Result of a compliance check (dataclass `ComplianceResult`). -/
structure ComplianceResult where
  rule_id : String
  status : String
  resource_id : String
  details : String
  remediation : String
deriving DecidableEq

/-- Behaviour of one check invocation: the result list it computes together
with an optional exception message; `some msg` means the invocation raises
with message `msg` (so its computed results never reach the caller). -/
abbrev CheckBehavior := List ComplianceResult × Option String

/-- The check registry: `getattr(self, name, None)` on the scanner, i.e. a
map from a check-function name to the bound check if one exists. -/
abbrev Checks := String → Option CheckBehavior

/-- The ERROR result synthesized by `scan_all` when
`getattr(self, rule.check_function, None)` returns `None`. -/
def notImplementedResult (rule : ComplianceRule) : ComplianceResult :=
  ⟨rule.id, "ERROR", "N/A",
    "Check function \x27" ++ rule.check_function ++ "\x27 not implemented", ""⟩

/-- The ERROR result synthesized by `scan_all`'s `except` branch when the
check raises with message `msg`. -/
def invocationErrorResult (rule : ComplianceRule) (msg : String) : ComplianceResult :=
  ⟨rule.id, "ERROR", "N/A", "Error running check: " ++ msg, ""⟩

/-- One iteration of the `for rule in self.rules` loop body of `scan_all`:
the results this rule contributes to `all_results`. -/
def runRule (checks : Checks) (rule : ComplianceRule) : List ComplianceResult :=
  match checks rule.check_function with
  | none => [notImplementedResult rule]
  | some invocation =>
      match invocation.2 with
      | some msg => [invocationErrorResult rule msg]
      | none => invocation.1

/-- The accumulating loop of `scan_all`: `all_results` starts as the
accumulator and each rule's contribution is appended (`extend`/`append`). -/
def scanLoop (checks : Checks) : List ComplianceRule → List ComplianceResult → List ComplianceResult
  | [], acc => acc
  | rule :: rest, acc => scanLoop checks rest (acc ++ runRule checks rule)

/-- The full result sequence collected by `scan_all` over a rule catalog. -/
def scan_all_results (checks : Checks) (rules : List ComplianceRule) : List ComplianceResult :=
  scanLoop checks rules []

/-- `SecurityComplianceScanner._get_rule_severity`: first rule with matching
id wins; `"UNKNOWN"` when no rule matches. -/
def get_rule_severity (rules : List ComplianceRule) (rule_id : String) : String :=
  match rules.find? (fun rule => rule.id == rule_id) with
  | some rule => rule.severity
  | none => "UNKNOWN"

/-- `sum(1 for r in all_results if r.status == s)`. -/
def countStatus (results : List ComplianceResult) (s : String) : Nat :=
  (results.filter (fun r => r.status == s)).length

/-- `sum(1 for r in all_results if self._get_rule_severity(r.rule_id) == sev)`. -/
def sevTotal (rules : List ComplianceRule) (results : List ComplianceResult) (sev : String) : Nat :=
  (results.filter (fun r => get_rule_severity rules r.rule_id == sev)).length

/-- `sum(1 for r in all_results if self._get_rule_severity(r.rule_id) == sev and r.status == "FAIL")`. -/
def sevFailed (rules : List ComplianceRule) (results : List ComplianceResult) (sev : String) : Nat :=
  (results.filter (fun r => get_rule_severity rules r.rule_id == sev && r.status == "FAIL")).length

/-- One `{total, failed}` entry of the `by_severity` summary dictionary. -/
structure SeverityCount where
  total : Nat
  failed : Nat
deriving DecidableEq

/-- The `summary` dictionary built at the end of `scan_all`. -/
structure ScanSummary where
  total_checks : Nat
  passed : Nat
  failed : Nat
  warnings : Nat
  errors : Nat
  critical : SeverityCount
  high : SeverityCount
  medium : SeverityCount
  low : SeverityCount
deriving DecidableEq

/-- The summary computation of `scan_all` (lines 343-367), as a function of
the collected results and the rule catalog. -/
def summarize (results : List ComplianceResult) (rules : List ComplianceRule) : ScanSummary :=
  ⟨results.length,
   countStatus results "PASS",
   countStatus results "FAIL",
   countStatus results "WARNING",
   countStatus results "ERROR",
   ⟨sevTotal rules results "CRITICAL", sevFailed rules results "CRITICAL"⟩,
   ⟨sevTotal rules results "HIGH", sevFailed rules results "HIGH"⟩,
   ⟨sevTotal rules results "MEDIUM", sevFailed rules results "MEDIUM"⟩,
   ⟨sevTotal rules results "LOW", sevFailed rules results "LOW"⟩⟩

/-- Mutable state of a `SecurityComplianceScanner` instance. -/
structure ScannerState where
  region : String
  rules : List ComplianceRule
  results : List ComplianceResult
deriving DecidableEq

/-- `SecurityComplianceScanner.scan_all`: runs every rule, stores the
collected results in `self.results`, and returns the summary together with
the result list (the returned dictionary). -/
def scan_all (checks : Checks) (s : ScannerState) :
    ScannerState × ScanSummary × List ComplianceResult :=
  let all := scan_all_results checks s.rules
  ({ s with results := all }, summarize all s.rules, all)

/-- One row of the exported report (the dict appended to `data` in
`export_results_csv` / `export_results_html`). -/
structure ReportRow where
  rule_id : String
  title : String
  severity : String
  category : String
  service : String
  status : String
  resource_id : String
  details : String
  remediation : String
deriving DecidableEq

/-- The per-result row construction shared by both exporters:
`next((r for r in self.rules if r.id == result.rule_id), None)` then either
the rule's metadata or the `"Unknown"` sentinels. -/
def projectRow (rules : List ComplianceRule) (result : ComplianceResult) : ReportRow :=
  match rules.find? (fun rule => rule.id == result.rule_id) with
  | some rule =>
      ⟨result.rule_id, rule.title, rule.severity, rule.category, rule.service,
       result.status, result.resource_id, result.details, result.remediation⟩
  | none =>
      ⟨result.rule_id, "Unknown", "Unknown", "Unknown", "Unknown",
       result.status, result.resource_id, result.details, result.remediation⟩

/-- The full `data` list built by the exporters. -/
def projectRows (rules : List ComplianceRule) (results : List ComplianceResult) : List ReportRow :=
  results.map (projectRow rules)

/-- `SecurityComplianceScanner.export_results_csv`: returns the (unchanged)
scanner state and the file content written, `none` when nothing is written
(the early `return` on empty `self.results`). -/
def export_results_csv (s : ScannerState) : ScannerState × Option (List ReportRow) :=
  if s.results.isEmpty then (s, none)
  else (s, some (projectRows s.rules s.results))

/-- Content of the HTML report: the summary counts interpolated into the
document header plus the detailed rows. -/
structure HtmlReport where
  total : Nat
  passed : Nat
  failed : Nat
  warnings : Nat
  errors : Nat
  rows : List ReportRow
deriving DecidableEq

/-- `SecurityComplianceScanner.export_results_html`: returns the (unchanged)
scanner state and the report written, `none` when nothing is written. -/
def export_results_html (s : ScannerState) : ScannerState × Option HtmlReport :=
  if s.results.isEmpty then (s, none)
  else
    (s, some ⟨s.results.length,
              countStatus s.results "PASS",
              countStatus s.results "FAIL",
              countStatus s.results "WARNING",
              countStatus s.results "ERROR",
              projectRows s.rules s.results⟩)

/-- The four severities of the `by_severity` breakdown. -/
def knownSeverities : List String := ["CRITICAL", "HIGH", "MEDIUM", "LOW"]

/-- The five members of the result status enumeration. -/
def statusValues : List String := ["PASS", "FAIL", "WARNING", "NOT_APPLICABLE", "ERROR"]

/-- Sum of the four per-severity `total` counts of a summary. -/
def fourTotals (sm : ScanSummary) : Nat :=
  sm.critical.total + sm.high.total + sm.medium.total + sm.low.total

/- ### Helper lemmas -/

lemma scanLoop_eq (checks : Checks) :
    ∀ (rules : List ComplianceRule) (acc : List ComplianceResult),
      scanLoop checks rules acc = acc ++ (rules.map (runRule checks)).flatten := by
  intro rules
  induction rules with
  | nil => intro acc; simp [scanLoop]
  | cons rule rest ih => intro acc; simp [scanLoop, ih]

lemma scan_all_results_eq (checks : Checks) (rules : List ComplianceRule) :
    scan_all_results checks rules = (rules.map (runRule checks)).flatten := by
  simp [scan_all_results, scanLoop_eq]

lemma runRule_not_implemented (checks : Checks) (rule : ComplianceRule)
    (h : checks rule.check_function = none) :
    runRule checks rule = [notImplementedResult rule] := by
  simp [runRule, h]

lemma runRule_raises (checks : Checks) (rule : ComplianceRule)
    (computed : List ComplianceResult) (msg : String)
    (h : checks rule.check_function = some (computed, some msg)) :
    runRule checks rule = [invocationErrorResult rule msg] := by
  simp [runRule, h]

lemma scan_all_results_append (checks : Checks) (rules₁ rules₂ : List ComplianceRule) :
    scan_all_results checks (rules₁ ++ rules₂) =
      scan_all_results checks rules₁ ++ scan_all_results checks rules₂ := by
  simp [scan_all_results_eq]

/-- Abbreviation for the sum of the four per-severity totals, computed
directly over the result list. -/
def fourSum (rules : List ComplianceRule) (results : List ComplianceResult) : Nat :=
  sevTotal rules results "CRITICAL" + sevTotal rules results "HIGH" +
    sevTotal rules results "MEDIUM" + sevTotal rules results "LOW"

lemma sevTotal_cons (rules : List ComplianceRule) (r : ComplianceResult)
    (rest : List ComplianceResult) (sev : String) :
    sevTotal rules (r :: rest) sev =
      (if get_rule_severity rules r.rule_id = sev then 1 else 0) + sevTotal rules rest sev := by
  simp only [sevTotal, List.filter_cons]
  by_cases h : get_rule_severity rules r.rule_id = sev
  · simp [h]; omega
  · simp [h]

lemma fourSum_cons (rules : List ComplianceRule) (r : ComplianceResult)
    (rest : List ComplianceResult) :
    fourSum rules (r :: rest) =
      (if get_rule_severity rules r.rule_id ∈ knownSeverities then 1 else 0) +
        fourSum rules rest := by
  simp only [fourSum, sevTotal_cons]
  by_cases h1 : get_rule_severity rules r.rule_id = "CRITICAL"
  · simp [knownSeverities, h1]; omega
  by_cases h2 : get_rule_severity rules r.rule_id = "HIGH"
  · simp [knownSeverities, h2]; omega
  by_cases h3 : get_rule_severity rules r.rule_id = "MEDIUM"
  · simp [knownSeverities, h3]; omega
  by_cases h4 : get_rule_severity rules r.rule_id = "LOW"
  · simp [knownSeverities, h4]; omega
  · simp [knownSeverities, h1, h2, h3, h4]

lemma fourSum_le (rules : List ComplianceRule) (results : List ComplianceResult) :
    fourSum rules results ≤ results.length := by
  induction results with
  | nil => simp [fourSum, sevTotal]
  | cons r rest ih =>
      rw [fourSum_cons]
      simp only [List.length_cons]
      by_cases h : get_rule_severity rules r.rule_id ∈ knownSeverities
      · simp only [h, if_pos]; omega
      · simp only [h, if_neg, not_false_iff]; omega

lemma fourSum_eq_iff (rules : List ComplianceRule) (results : List ComplianceResult) :
    fourSum rules results = results.length ↔
      ∀ r ∈ results, get_rule_severity rules r.rule_id ∈ knownSeverities := by
  induction results with
  | nil => simp [fourSum, sevTotal]
  | cons r rest ih =>
      have hle := fourSum_le rules rest
      rw [fourSum_cons]
      simp only [List.length_cons, List.mem_cons]
      by_cases h : get_rule_severity rules r.rule_id ∈ knownSeverities
      · simp only [h, if_pos]
        constructor
        · intro heq x hx
          rcases hx with hx | hx
          · rw [hx]; exact h
          · exact (ih.mp (by omega)) x hx
        · intro hall
          have : fourSum rules rest = rest.length :=
            ih.mpr (fun x hx => hall x (Or.inr hx))
          omega
      · simp only [h, if_neg, not_false_iff]
        constructor
        · intro heq; omega
        · intro hall; exact absurd (hall r (Or.inl rfl)) h

lemma sev_known_iff (rules : List ComplianceRule) (rid : String) :
    get_rule_severity rules rid ∈ knownSeverities ↔
      ∃ rule, rules.find? (fun q => q.id == rid) = some rule ∧
        rule.severity ∈ knownSeverities := by
  unfold get_rule_severity
  cases h : rules.find? (fun q => q.id == rid) with
  | none =>
      simp only [h]
      constructor
      · intro hmem; exact absurd hmem (by decide)
      · rintro ⟨rule, hrule, -⟩; cases hrule
  | some rule => simp [h]

lemma countStatus_perm (R R' : List ComplianceResult) (s : String) (h : R.Perm R') :
    countStatus R s = countStatus R' s :=
  (h.filter _).length_eq

lemma sevTotal_perm (rules : List ComplianceRule) (R R' : List ComplianceResult)
    (sev : String) (h : R.Perm R') :
    sevTotal rules R sev = sevTotal rules R' sev :=
  (h.filter _).length_eq

lemma sevFailed_perm (rules : List ComplianceRule) (R R' : List ComplianceResult)
    (sev : String) (h : R.Perm R') :
    sevFailed rules R sev = sevFailed rules R' sev :=
  (h.filter _).length_eq

lemma length_eq_sum_counts (results : List ComplianceResult)
    (h : ∀ r ∈ results, r.status ∈ statusValues) :
    results.length =
      countStatus results "PASS" + countStatus results "FAIL" +
        countStatus results "WARNING" + countStatus results "ERROR" +
        countStatus results "NOT_APPLICABLE" := by
  induction results with
  | nil => simp [countStatus]
  | cons r rest ih =>
      have hr : r.status ∈ statusValues := h r (by simp)
      have ih' := ih (fun x hx => h x (by simp [hx]))
      simp only [countStatus, List.filter_cons, List.length_cons] at *
      have hr' : r.status = "PASS" ∨ r.status = "FAIL" ∨ r.status = "WARNING" ∨
          r.status = "NOT_APPLICABLE" ∨ r.status = "ERROR" := by
        simpa [statusValues] using hr
      rcases hr' with h1 | h1 | h1 | h1 | h1 <;> simp [h1] <;> omega

/- ### Claims -/

/-- C1: for every result sequence R and rule catalog C, the `total_checks`
field of the summary equals the length of R; in particular the summary
returned by `scan_all` has `total_checks` equal to the length of its
collected results. -/
theorem summarize_total_checks_eq_length :
    (∀ (results : List ComplianceResult) (rules : List ComplianceRule),
        (summarize results rules).total_checks = results.length) ∧
    (∀ (checks : Checks) (s : ScannerState),
        ((scan_all checks s).2.1).total_checks = ((scan_all checks s).2.2).length) :=
  ⟨fun _ _ => rfl, fun _ _ => rfl⟩

/-- C3: a rule whose check-function name does not resolve to a registered
check contributes exactly one ERROR result with resource id `"N/A"` and
details stating the check is not implemented, and the scan continues with
the remaining rules (their results are unaffected). -/
theorem scan_unimplemented_check_single_error (checks : Checks)
    (rules₁ rules₂ : List ComplianceRule) (rule : ComplianceRule)
    (h : checks rule.check_function = none) :
    scan_all_results checks (rules₁ ++ rule :: rules₂) =
      scan_all_results checks rules₁ ++
        [⟨rule.id, "ERROR", "N/A",
          "Check function \x27" ++ rule.check_function ++ "\x27 not implemented", ""⟩] ++
        scan_all_results checks rules₂ := by
  have hr := runRule_not_implemented checks rule h
  simp [scan_all_results_eq, hr, notImplementedResult]

theorem scan_unimplemented_check_single_error_witness :
    scan_all_results (fun _ => none)
        [⟨"R1", "t", "d", "HIGH", "SECURITY", "IAM", "missing_check"⟩] =
      [⟨"R1", "ERROR", "N/A", "Check function \x27missing_check\x27 not implemented", ""⟩] := by
  have h := scan_unimplemented_check_single_error (fun _ => none) [] []
    ⟨"R1", "t", "d", "HIGH", "SECURITY", "IAM", "missing_check"⟩ rfl
  simpa using h

/-- C4: a rule whose check raises contributes exactly one ERROR result
carrying the failure message in its details; the results the failed
invocation had computed are discarded, the exception does not propagate,
and the results of earlier and later rules are neither lost nor
duplicated. -/
theorem scan_raising_check_single_error (checks : Checks)
    (rules₁ rules₂ : List ComplianceRule) (rule : ComplianceRule)
    (computed : List ComplianceResult) (msg : String)
    (h : checks rule.check_function = some (computed, some msg)) :
    scan_all_results checks (rules₁ ++ rule :: rules₂) =
      scan_all_results checks rules₁ ++
        [⟨rule.id, "ERROR", "N/A", "Error running check: " ++ msg, ""⟩] ++
        scan_all_results checks rules₂ := by
  have hr := runRule_raises checks rule computed msg h
  simp [scan_all_results_eq, hr, invocationErrorResult]

theorem scan_raising_check_single_error_witness :
    scan_all_results
        (fun _ => some ([⟨"R1", "PASS", "x", "stale", ""⟩], some "boom"))
        [⟨"R1", "t", "d", "HIGH", "SECURITY", "IAM", "check_a"⟩] =
      [⟨"R1", "ERROR", "N/A", "Error running check: boom", ""⟩] := by
  have h := scan_raising_check_single_error
    (fun _ => some ([⟨"R1", "PASS", "x", "stale", ""⟩], some "boom")) [] []
    ⟨"R1", "t", "d", "HIGH", "SECURITY", "IAM", "check_a"⟩
    [⟨"R1", "PASS", "x", "stale", ""⟩] "boom" rfl
  simpa using h

/-- C5: the result sequence of a full scan is the in-order concatenation of
each rule's per-rule results, following the catalog's declared rule order,
with results within one rule invocation kept in the order the check
produced them. -/
theorem scan_all_catalog_order (checks : Checks) (rules : List ComplianceRule) :
    scan_all_results checks rules = (rules.map (runRule checks)).flatten :=
  scan_all_results_eq checks rules

/-- C6: projecting a result whose `rule_id` is absent from the catalog sets
all four rule-metadata fields to `"Unknown"` while the result's own fields
pass through unchanged; a result whose `rule_id` resolves takes its
metadata from the matching rule. -/
theorem projectRow_resolution (rules : List ComplianceRule) (result : ComplianceResult) :
    (rules.find? (fun rule => rule.id == result.rule_id) = none →
      projectRow rules result =
        ⟨result.rule_id, "Unknown", "Unknown", "Unknown", "Unknown",
         result.status, result.resource_id, result.details, result.remediation⟩) ∧
    (∀ rule, rules.find? (fun rule => rule.id == result.rule_id) = some rule →
      projectRow rules result =
        ⟨result.rule_id, rule.title, rule.severity, rule.category, rule.service,
         result.status, result.resource_id, result.details, result.remediation⟩) := by
  constructor
  · intro h; simp [projectRow, h]
  · intro rule h; simp [projectRow, h]

theorem projectRow_resolution_witness :
    projectRow [] ⟨"X", "FAIL", "res", "det", "rem"⟩ =
      ⟨"X", "Unknown", "Unknown", "Unknown", "Unknown", "FAIL", "res", "det", "rem"⟩ ∧
    projectRow [⟨"X", "T", "D", "LOW", "COST", "S3", "f"⟩] ⟨"X", "FAIL", "res", "det", "rem"⟩ =
      ⟨"X", "T", "LOW", "COST", "S3", "FAIL", "res", "det", "rem"⟩ :=
  ⟨(projectRow_resolution [] ⟨"X", "FAIL", "res", "det", "rem"⟩).1 rfl,
   (projectRow_resolution [⟨"X", "T", "D", "LOW", "COST", "S3", "f"⟩]
      ⟨"X", "FAIL", "res", "det", "rem"⟩).2 ⟨"X", "T", "D", "LOW", "COST", "S3", "f"⟩ rfl⟩

/-- C9: `scan_all` never mutates the rule catalog (nor the region): only the
stored results change, becoming exactly the collected result sequence. -/
theorem scan_all_preserves_rules (checks : Checks) (s : ScannerState) :
    (scan_all checks s).1.rules = s.rules ∧
    (scan_all checks s).1.region = s.region ∧
    (scan_all checks s).1.results = scan_all_results checks s.rules :=
  ⟨rfl, rfl, rfl⟩

/-- C10: when the stored result sequence is empty, both exporters return
immediately: no file content is produced and the scanner state is
unchanged. -/
theorem export_empty_results_noop (s : ScannerState) (h : s.results = []) :
    export_results_csv s = (s, none) ∧ export_results_html s = (s, none) := by
  constructor
  · simp [export_results_csv, h]
  · simp [export_results_html, h]

theorem export_empty_results_noop_witness :
    export_results_csv ⟨"us-gov-west-1", [], []⟩ = (⟨"us-gov-west-1", [], []⟩, none) ∧
    export_results_html ⟨"us-gov-west-1", [], []⟩ = (⟨"us-gov-west-1", [], []⟩, none) :=
  export_empty_results_noop ⟨"us-gov-west-1", [], []⟩ rfl

/-- C2: the sum of the four per-severity `total` counts of the summary is at
most the number of results, with equality iff every result's `rule_id`
resolves via the catalog to a rule whose severity is one of the four known
severities; a result whose `rule_id` does not resolve gets the severity
`"UNKNOWN"`, which lies in no severity bucket. -/
theorem severity_totals_sum (results : List ComplianceResult) (rules : List ComplianceRule) :
    fourTotals (summarize results rules) ≤ results.length ∧
    (fourTotals (summarize results rules) = results.length ↔
      ∀ r ∈ results, ∃ rule, rules.find? (fun q => q.id == r.rule_id) = some rule ∧
        rule.severity ∈ knownSeverities) ∧
    (∀ rid, rules.find? (fun q => q.id == rid) = none →
      get_rule_severity rules rid = "UNKNOWN" ∧ "UNKNOWN" ∉ knownSeverities) := by
  have hfold : fourTotals (summarize results rules) = fourSum rules results := rfl
  refine ⟨?_, ?_, ?_⟩
  · rw [hfold]; exact fourSum_le rules results
  · rw [hfold, fourSum_eq_iff]
    constructor
    · intro h r hr; exact (sev_known_iff rules r.rule_id).mp (h r hr)
    · intro h r hr; exact (sev_known_iff rules r.rule_id).mpr (h r hr)
  · intro rid h
    refine ⟨?_, by decide⟩
    simp [get_rule_severity, h]

theorem severity_totals_sum_witness :
    get_rule_severity [] "SEC-IAM-001" = "UNKNOWN" ∧ "UNKNOWN" ∉ knownSeverities :=
  (severity_totals_sum [] []).2.2 "SEC-IAM-001" rfl

/-- C7: a NOT_APPLICABLE result is counted in `total_checks` but in none of
the four explicit status counters: whenever every result's status is one of
PASS, FAIL, WARNING, NOT_APPLICABLE, ERROR, the total equals
passed + failed + warnings + errors + the number of NOT_APPLICABLE
results. -/
theorem summary_status_partition (results : List ComplianceResult)
    (rules : List ComplianceRule) (h : ∀ r ∈ results, r.status ∈ statusValues) :
    (summarize results rules).total_checks =
      (summarize results rules).passed + (summarize results rules).failed +
        (summarize results rules).warnings + (summarize results rules).errors +
        countStatus results "NOT_APPLICABLE" := by
  have hcounts := length_eq_sum_counts results h
  simpa [summarize] using hcounts

theorem summary_status_partition_witness :
    (summarize [⟨"A", "PASS", "x", "d", ""⟩, ⟨"B", "NOT_APPLICABLE", "y", "d", ""⟩] []).total_checks =
      (summarize [⟨"A", "PASS", "x", "d", ""⟩, ⟨"B", "NOT_APPLICABLE", "y", "d", ""⟩] []).passed +
        (summarize [⟨"A", "PASS", "x", "d", ""⟩, ⟨"B", "NOT_APPLICABLE", "y", "d", ""⟩] []).failed +
        (summarize [⟨"A", "PASS", "x", "d", ""⟩, ⟨"B", "NOT_APPLICABLE", "y", "d", ""⟩] []).warnings +
        (summarize [⟨"A", "PASS", "x", "d", ""⟩, ⟨"B", "NOT_APPLICABLE", "y", "d", ""⟩] []).errors +
        countStatus [⟨"A", "PASS", "x", "d", ""⟩, ⟨"B", "NOT_APPLICABLE", "y", "d", ""⟩]
          "NOT_APPLICABLE" :=
  summary_status_partition
    [⟨"A", "PASS", "x", "d", ""⟩, ⟨"B", "NOT_APPLICABLE", "y", "d", ""⟩] [] (by decide)

/-- C8: aggregation is order-independent: permuting the result sequence
leaves the whole summary (all global counters and all per-severity
`{total, failed}` pairs) unchanged. -/
theorem summarize_perm_invariant (R Rp : List ComplianceResult)
    (rules : List ComplianceRule) (h : R.Perm Rp) :
    summarize R rules = summarize Rp rules := by
  simp only [summarize, ScanSummary.mk.injEq, SeverityCount.mk.injEq]
  exact ⟨h.length_eq,
    countStatus_perm R Rp "PASS" h, countStatus_perm R Rp "FAIL" h,
    countStatus_perm R Rp "WARNING" h, countStatus_perm R Rp "ERROR" h,
    ⟨sevTotal_perm rules R Rp "CRITICAL" h, sevFailed_perm rules R Rp "CRITICAL" h⟩,
    ⟨sevTotal_perm rules R Rp "HIGH" h, sevFailed_perm rules R Rp "HIGH" h⟩,
    ⟨sevTotal_perm rules R Rp "MEDIUM" h, sevFailed_perm rules R Rp "MEDIUM" h⟩,
    sevTotal_perm rules R Rp "LOW" h, sevFailed_perm rules R Rp "LOW" h⟩

theorem summarize_perm_invariant_witness :
    summarize [⟨"A", "PASS", "x", "d", ""⟩, ⟨"B", "FAIL", "y", "d", "fix"⟩] [] =
      summarize [⟨"B", "FAIL", "y", "d", "fix"⟩, ⟨"A", "PASS", "x", "d", ""⟩] [] :=
  summarize_perm_invariant
    [⟨"A", "PASS", "x", "d", ""⟩, ⟨"B", "FAIL", "y", "d", "fix"⟩]
    [⟨"B", "FAIL", "y", "d", "fix"⟩, ⟨"A", "PASS", "x", "d", ""⟩] []
    (List.Perm.swap (⟨"B", "FAIL", "y", "d", "fix"⟩ : ComplianceResult)
      (⟨"A", "PASS", "x", "d", ""⟩ : ComplianceResult) [])
